import Mathlib

/-!
Verification of the time-parsing and notification-scheduling core of the
claudecodecountdown repository.

Instants are modelled as `Int` milliseconds since the Unix epoch, matching
JavaScript `Date.getTime()`.  The embedded functions are:

* `parseTimeString` and `validateAndParse` from `TimeInput.tsx` (the
  TimeResolver);
* `scheduleAccessNotifications` from `twilio.ts` (the revision with the
  16-minute minimum scheduling lead and a Twilio Messaging Service);
* `POST` from `app/api/schedule-sms/route.ts` (the scheduling endpoint).
-/

namespace Countdown

/-- The meridiem captured by the third group of the regex
`^(\d{1,2})(?::(\d{2}))?\s*(am|pm)$` in `parseTimeString`. -/
inductive Meridiem where
  | am
  | pm
deriving DecidableEq, Repr

/-- JavaScript `parseInt(s, 10)` on a nonempty string of decimal digits. -/
def digitsVal (ds : List Char) : Nat :=
  ds.foldl (fun a c => 10 * a + (c.toNat - 48)) 0

/-- Recognises the tail group `(am|pm)` of the regex, anchored at end of
input (the match must consume the whole remainder). -/
def matchMeridiem : List Char → Option Meridiem
  | ['a', 'm'] => some Meridiem.am
  | ['p', 'm'] => some Meridiem.pm
  | _ => none

/-- The anchored regex match `^(\d{1,2})(?::(\d{2}))?\s*(am|pm)$` of
`parseTimeString`, applied to the cleaned input (which contains no
whitespace, so `\s*` is vacuous).  Returns the raw hour group, the minute
group (0 when absent, as `parseTimeString` defaults it), and the meridiem.
A maximal leading digit run of length other than 1 or 2, or a minute group
of length other than 2, makes every backtracking alternative of the regex
fail, so the match is deterministic. -/
def parseCleaned (cs : List Char) : Option (Nat × Nat × Meridiem) :=
  let p := cs.span Char.isDigit
  if p.1.length = 1 ∨ p.1.length = 2 then
    match p.2 with
    | ':' :: r2 =>
      let q := r2.span Char.isDigit
      if q.1.length = 2 then
        match matchMeridiem q.2 with
        | some per => some (digitsVal p.1, digitsVal q.1, per)
        | none => none
      else none
    | rest =>
      match matchMeridiem rest with
      | some per => some (digitsVal p.1, 0, per)
      | none => none
  else none

/-- Models the JavaScript blank test `!value.trim()`: a string is blank
exactly when every character is whitespace, so trimming leaves the (falsy)
empty string. -/
def isBlank (s : String) : Bool :=
  s.toList.all Char.isWhitespace

/-- The cleaning pipeline of `parseTimeString`: trim, then lower-case, then
replace every whitespace run by the empty string.  The replacement is
the same as dropping every whitespace character, which also subsumes the
leading `trim()` (lower-casing maps no non-whitespace character to
whitespace, so the order of the two steps is immaterial). -/
def cleanInput (input : String) : List Char :=
  (input.toList.map Char.toLower).filter (fun c => !c.isWhitespace)

/-- `parseTimeString` from `TimeInput.tsx` (lines 22-46): clean the input,
match the regex, validate 1 ≤ hours ≤ 12 and minutes ≤ 59, then convert to
24-hour form (`am`: 12 becomes 0; `pm`: any hour other than 12 gains 12). -/
def parseTimeString (input : String) : Option (Nat × Nat) :=
  match parseCleaned (cleanInput input) with
  | none => none
  | some (h0, m0, per) =>
    if h0 < 1 ∨ h0 > 12 then none
    else if m0 > 59 then none
    else
      match per with
      | Meridiem.am => some (if h0 = 12 then 0 else h0, m0)
      | Meridiem.pm => some (if h0 ≠ 12 then h0 + 12 else h0, m0)

/-- The observable outcome of `validateAndParse` in `TimeInput.tsx`:
`noInput` is the blank-input state (error cleared, `onTimeChange` called
with null), `parseError` carries the field-level message shown via
`setError` (again with a null time), and `target` carries the resolved
instant passed to `onTimeChange` as valid. -/
inductive ResolveOutcome where
  | noInput
  | parseError (msg : String)
  | target (t : Int)
deriving DecidableEq, Repr

/-- The fixed field-level message shown by `validateAndParse` when
`parseTimeString` rejects the input. -/
def parseErrorMsg : String :=
  "Please enter time in format: HH:MM AM/PM (e.g., 2:30 PM)"

/-- Milliseconds in one UTC calendar day (JavaScript time has no leap
seconds, so `setUTCDate(d + 1)` always adds exactly this amount). -/
def dayMs : Int := 86400000

/-- `validateAndParse` from `TimeInput.tsx` (lines 53-89).  A blank or
whitespace-only value is the distinct no-input state.  Otherwise the input
is parsed; on success the candidate is `Date.UTC(year, month, date of now,
hours, minutes, 0)`, i.e. the start of the UTC day of `now` plus the parsed
time-of-day, and if the candidate is at or before `now` the date is
advanced by one day. -/
def validateAndParse (input : String) (now : Int) : ResolveOutcome :=
  if isBlank input then ResolveOutcome.noInput
  else
    match parseTimeString input with
    | none => ResolveOutcome.parseError parseErrorMsg
    | some (h, m) =>
      let dayStart : Int := now - now.emod dayMs
      let candidate : Int := dayStart + h * 3600000 + m * 60000
      ResolveOutcome.target (if candidate ≤ now then candidate + dayMs else candidate)

/-- The 12-hour to 24-hour normalization table as the specification states
it: `12am → 0`, `1am..11am → 1..11`, `12pm → 12`, `1pm..11pm → 13..23`.
Written from the words of the spec, to be compared with the conversion performed
inside `parseTimeString`. -/
def specHour24 (h0 : Nat) (per : Meridiem) : Nat :=
  match per with
  | Meridiem.am => if h0 = 12 then 0 else h0
  | Meridiem.pm => if h0 = 12 then 12 else h0 + 12

/-- Lower-casing a whitespace character leaves it whitespace (it is in fact
unchanged, since none of the four whitespace characters is an upper-case
letter). -/
theorem toLower_whitespace {c : Char} (hc : c.isWhitespace = true) :
    (Char.toLower c).isWhitespace = true := by
  simp only [Char.isWhitespace] at hc
  rcases Bool.or_eq_true_iff.mp hc with h | h
  · rcases Bool.or_eq_true_iff.mp h with h | h
    · rcases Bool.or_eq_true_iff.mp h with h | h
      all_goals (rw [decide_eq_true_iff] at h; subst h; decide)
    · rw [decide_eq_true_iff] at h; subst h; decide
  · rw [decide_eq_true_iff] at h; subst h; decide

/-- A list of whitespace characters cleans to the empty list. -/
theorem clean_nil_of_all_whitespace :
    ∀ l : List Char, l.all Char.isWhitespace = true →
      (l.map Char.toLower).filter (fun c => !c.isWhitespace) = [] := by
  intro l
  induction l with
  | nil => intro _; rfl
  | cons c cs ih =>
    intro hb
    rw [List.all_cons, Bool.and_eq_true] at hb
    obtain ⟨hc, hcs⟩ := hb
    rw [List.map_cons, List.filter_cons]
    rw [toLower_whitespace hc]
    exact ih hcs

/-- A blank input cleans to the empty character list. -/
theorem cleanInput_of_blank {input : String} (hb : isBlank input = true) :
    cleanInput input = [] := by
  unfold isBlank at hb
  unfold cleanInput
  exact clean_nil_of_all_whitespace input.toList hb

/-- A blank input never parses: the cleaned list is empty, which the regex
rejects. -/
theorem parseTimeString_of_blank {input : String} (hb : isBlank input = true) :
    parseTimeString input = none := by
  unfold parseTimeString
  rw [cleanInput_of_blank hb]
  rfl

/-- An input that parses is not blank. -/
theorem not_blank_of_parse {input : String} {p : Nat × Nat}
    (hp : parseTimeString input = some p) : isBlank input = false := by
  cases hb : isBlank input with
  | false => rfl
  | true => rw [parseTimeString_of_blank hb] at hp; exact absurd hp (by simp)

/-- The hour produced by `parseTimeString` is at most 23 and the minute at
most 59 (the range checks and the 12-hour conversion guarantee it). -/
theorem parseTimeString_bounds {input : String} {h m : Nat}
    (hp : parseTimeString input = some (h, m)) : h ≤ 23 ∧ m ≤ 59 := by
  unfold parseTimeString at hp
  cases hpc : parseCleaned (cleanInput input) with
  | none => rw [hpc] at hp; exact absurd hp (by simp)
  | some v =>
    obtain ⟨h0, m0, per⟩ := v
    rw [hpc] at hp
    simp only at hp
    split at hp
    · exact absurd hp (by simp)
    · rename_i hrange
      split at hp
      · exact absurd hp (by simp)
      · rename_i hmin
        cases per with
        | am =>
          simp only [Option.some.injEq, Prod.mk.injEq] at hp
          obtain ⟨hh, hm⟩ := hp
          subst hh; subst hm
          constructor
          · split <;> omega
          · omega
        | pm =>
          simp only [Option.some.injEq, Prod.mk.injEq] at hp
          obtain ⟨hh, hm⟩ := hp
          subst hh; subst hm
          constructor
          · split <;> omega
          · omega

/-- When the cleaned input matches the regex with in-range raw components,
`parseTimeString` succeeds and returns the converted hour. -/
theorem parseTimeString_of_raw {input : String} {h0 m0 : Nat} {per : Meridiem}
    (hpc : parseCleaned (cleanInput input) = some (h0, m0, per))
    (h1 : 1 ≤ h0) (h2 : h0 ≤ 12) (h3 : m0 ≤ 59) :
    parseTimeString input = some (specHour24 h0 per, m0) := by
  cases per with
  | am =>
    unfold parseTimeString
    rw [hpc]
    simp only
    rw [if_neg (by omega), if_neg (by omega)]
    simp [specHour24]
  | pm =>
    unfold parseTimeString
    rw [hpc]
    simp only
    rw [if_neg (by omega), if_neg (by omega)]
    by_cases h12 : h0 = 12 <;> simp [specHour24, h12]

/-- When parsing succeeds, `validateAndParse` returns the candidate built
on the UTC day of `now`, advanced by one day exactly when the candidate is at or
before `now`. -/
theorem validateAndParse_eq_target {input : String} {h m : Nat} (now : Int)
    (hp : parseTimeString input = some (h, m)) :
    validateAndParse input now =
      ResolveOutcome.target
        (if now - now.emod dayMs + h * 3600000 + m * 60000 ≤ now
         then now - now.emod dayMs + h * 3600000 + m * 60000 + dayMs
         else now - now.emod dayMs + h * 3600000 + m * 60000) := by
  unfold validateAndParse
  rw [not_blank_of_parse hp]
  simp only [Bool.false_eq_true, if_false]
  rw [hp]

/-- Every instant produced by `validateAndParse` is strictly after `now`. -/
theorem target_strictly_future {input : String} {now t : Int}
    (ht : validateAndParse input now = ResolveOutcome.target t) : now < t := by
  unfold validateAndParse at ht
  split at ht
  · exact absurd ht (by simp)
  · cases hp : parseTimeString input with
    | none => rw [hp] at ht; exact absurd ht (by simp)
    | some v =>
      obtain ⟨h, m⟩ := v
      rw [hp] at ht
      simp only [ResolveOutcome.target.injEq, dayMs] at ht
      have he1 : 0 ≤ now.emod 86400000 := Int.emod_nonneg now (by norm_num)
      have he2 : now.emod 86400000 < 86400000 := Int.emod_lt_of_pos now (by norm_num)
      split at ht <;> omega

/-- Every instant produced by `validateAndParse` is at most one day after
`now` (the rollover advances the date by exactly one day, never more). -/
theorem target_within_one_day {input : String} {now t : Int}
    (ht : validateAndParse input now = ResolveOutcome.target t) :
    t ≤ now + dayMs := by
  unfold validateAndParse at ht
  split at ht
  · exact absurd ht (by simp)
  · cases hp : parseTimeString input with
    | none => rw [hp] at ht; exact absurd ht (by simp)
    | some v =>
      obtain ⟨h, m⟩ := v
      have hbounds := parseTimeString_bounds hp
      rw [hp] at ht
      simp only [ResolveOutcome.target.injEq, dayMs] at ht
      simp only [dayMs]
      have he1 : 0 ≤ now.emod 86400000 := Int.emod_nonneg now (by norm_num)
      have he2 : now.emod 86400000 < 86400000 := Int.emod_lt_of_pos now (by norm_num)
      split at ht <;> omega

/-- The anchoring rule as the specification states it: take the candidate
instant on the UTC calendar day of `now` at the parsed hour and minute with
second 0, and advance the date by exactly one day when the candidate is at
or before `now`.  Stated from the spec for comparison with
`validateAndParse`. -/
def anchoredTarget (now : Int) (h m : Nat) : Int :=
  let candidate : Int := now - now.emod dayMs + h * 3600000 + m * 60000
  if candidate ≤ now then candidate + dayMs else candidate

/-- C1: for every input of the valid form `H[:MM](am|pm)` with `H` in 1..12
and `MM` in 0..59 (captured structurally: the cleaned input matches the
regex with in-range raw components) and every instant `now`,
`validateAndParse` returns a target instant strictly after `now`; moreover
any target instant it ever produces is strictly after `now`, so the
TargetInstant invariant holds at creation. -/
theorem c1_target_strictly_future :
    (∀ (input : String) (now : Int) (h0 m0 : Nat) (per : Meridiem),
        parseCleaned (cleanInput input) = some (h0, m0, per) →
        1 ≤ h0 → h0 ≤ 12 → m0 ≤ 59 →
        ∃ t, validateAndParse input now = ResolveOutcome.target t ∧ now < t) ∧
    (∀ (input : String) (now t : Int),
        validateAndParse input now = ResolveOutcome.target t → now < t) := by
  constructor
  · intro input now h0 m0 per hpc h1 h2 h3
    have hp := parseTimeString_of_raw hpc h1 h2 h3
    exact ⟨_, validateAndParse_eq_target now hp,
           target_strictly_future (validateAndParse_eq_target now hp)⟩
  · intro input now t ht
    exact target_strictly_future ht

/-- Witness for C1 at input "8pm" and now = 0. -/
theorem c1_target_strictly_future_witness :
    (∃ t, validateAndParse "8pm" 0 = ResolveOutcome.target t ∧ (0 : Int) < t) ∧
    (0 : Int) < 72000000 :=
  ⟨c1_target_strictly_future.1 "8pm" 0 8 0 Meridiem.pm (by decide)
     (by decide) (by decide) (by decide),
   c1_target_strictly_future.2 "8pm" 0 72000000 (by decide)⟩

/-- C2: for every valid parsed time and every `now`, the resolver returns
exactly the anchored candidate (built on the UTC day of `now` from the parsed
hour and minute, advanced by one day exactly when at or before `now`), the
result is strictly future and at most one day after `now` (the date is
never advanced by more than one day); concretely, "8pm" resolved at
2024-01-01T20:05:00Z (1704139500000 ms) gives 2024-01-02T20:00:00Z
(1704225600000 ms) and resolved at 2024-01-01T19:55:00Z (1704138900000 ms)
gives 2024-01-01T20:00:00Z (1704139200000 ms). -/
theorem c2_anchoring_and_rollover :
    (∀ (input : String) (now : Int) (h m : Nat),
        parseTimeString input = some (h, m) →
        validateAndParse input now = ResolveOutcome.target (anchoredTarget now h m) ∧
        now < anchoredTarget now h m ∧
        anchoredTarget now h m ≤ now + dayMs) ∧
    validateAndParse "8pm" 1704139500000 = ResolveOutcome.target 1704225600000 ∧
    validateAndParse "8pm" 1704138900000 = ResolveOutcome.target 1704139200000 := by
  refine ⟨?_, by decide, by decide⟩
  intro input now h m hp
  have heq : validateAndParse input now = ResolveOutcome.target (anchoredTarget now h m) := by
    rw [validateAndParse_eq_target now hp]
    simp only [anchoredTarget]
  exact ⟨heq, target_strictly_future heq, target_within_one_day heq⟩

/-- Witness for C2 at input "8pm" and now = 0. -/
theorem c2_anchoring_and_rollover_witness :
    validateAndParse "8pm" 0 = ResolveOutcome.target (anchoredTarget 0 20 0) ∧
    (0 : Int) < anchoredTarget 0 20 0 ∧
    anchoredTarget 0 20 0 ≤ 0 + dayMs :=
  c2_anchoring_and_rollover.1 "8pm" 0 20 0 (by decide)

/-- C3: for every accepted 12-hour input, the hour normalization of the parser
agrees with the reference map (12am to 0, 1am..11am unchanged, 12pm to 12,
1pm..11pm to hour plus twelve) and the minutes are passed through
unchanged. -/
theorem c3_hour_normalization :
    ∀ (input : String) (h0 m0 : Nat) (per : Meridiem),
      parseCleaned (cleanInput input) = some (h0, m0, per) →
      1 ≤ h0 → h0 ≤ 12 → m0 ≤ 59 →
      parseTimeString input = some (specHour24 h0 per, m0) :=
  fun _ _ _ _ hpc h1 h2 h3 => parseTimeString_of_raw hpc h1 h2 h3

/-- Witness for C3 at input "12:30am". -/
theorem c3_hour_normalization_witness :
    parseTimeString "12:30am" = some (specHour24 12 Meridiem.am, 30) :=
  c3_hour_normalization "12:30am" 12 30 Meridiem.am (by decide)
    (by decide) (by decide) (by decide)

/-- C4: the resolver yields the no-input state exactly on blank input (no
instant, no error message); any failed parse yields the fixed non-empty
field-level error message and no instant; the inputs "20:00", "13pm" and
"8:75pm" are each rejected with that message, while "" and whitespace-only
input are the no-input state. -/
theorem c4_rejection :
    (∀ (input : String) (now : Int),
        validateAndParse input now = ResolveOutcome.noInput ↔ isBlank input = true) ∧
    (∀ (input : String) (now : Int) (msg : String),
        validateAndParse input now = ResolveOutcome.parseError msg →
        msg = parseErrorMsg ∧ msg ≠ "") ∧
    (∀ now : Int, validateAndParse "20:00" now = ResolveOutcome.parseError parseErrorMsg) ∧
    (∀ now : Int, validateAndParse "13pm" now = ResolveOutcome.parseError parseErrorMsg) ∧
    (∀ now : Int, validateAndParse "8:75pm" now = ResolveOutcome.parseError parseErrorMsg) ∧
    (∀ now : Int, validateAndParse "" now = ResolveOutcome.noInput) ∧
    (∀ now : Int, validateAndParse "   " now = ResolveOutcome.noInput) := by
  refine ⟨?_, ?_, fun _ => rfl, fun _ => rfl, fun _ => rfl, fun _ => rfl, fun _ => rfl⟩
  · intro input now
    constructor
    · intro hni
      by_contra hb
      rw [Bool.not_eq_true] at hb
      unfold validateAndParse at hni
      rw [hb] at hni
      simp only [Bool.false_eq_true, if_false] at hni
      cases hp : parseTimeString input with
      | none => rw [hp] at hni; exact absurd hni (by simp)
      | some v => obtain ⟨h, m⟩ := v; rw [hp] at hni; exact absurd hni (by simp)
    · intro hb
      unfold validateAndParse
      rw [hb]
      rfl
  · intro input now msg hpe
    unfold validateAndParse at hpe
    split at hpe
    · exact absurd hpe (by simp)
    · cases hp : parseTimeString input with
      | none =>
        rw [hp] at hpe
        simp only [ResolveOutcome.parseError.injEq] at hpe
        subst hpe
        exact ⟨rfl, by decide⟩
      | some v => obtain ⟨h, m⟩ := v; rw [hp] at hpe; exact absurd hpe (by simp)

/-- Witness for C4: blank round-trip and the rejection of "20:00". -/
theorem c4_rejection_witness :
    validateAndParse "" 0 = ResolveOutcome.noInput ∧
    (parseErrorMsg = parseErrorMsg ∧ parseErrorMsg ≠ "") :=
  ⟨(c4_rejection.1 "" 0).mpr (by decide),
   c4_rejection.2.1 "20:00" 0 parseErrorMsg (by decide)⟩

/-- C5: parsing is insensitive to letter case and internal whitespace and a
missing minute component defaults to 00, so "8pm" and "8:00 PM" parse to
the same clock time and resolve to the same instant for every `now`. -/
theorem c5_equivalent_forms :
    parseTimeString "8pm" = some (20, 0) ∧
    parseTimeString "8:00 PM" = some (20, 0) ∧
    ∀ now : Int, validateAndParse "8pm" now = validateAndParse "8:00 PM" now :=
  ⟨rfl, rfl, fun _ => rfl⟩

/-- Environment configuration read by `twilio.ts`: the three environment
variables, each possibly unset. -/
structure TwilioEnv where
  accountSid : Option String
  authToken : Option String
  messagingServiceSid : Option String
deriving DecidableEq, Repr

/-- JavaScript falsiness of an environment variable (`!accountSid` etc.):
true when the variable is unset or the empty string. -/
def optionFalsy : Option String → Bool
  | none => true
  | some s => s = ""

/-- One call to `client.messages.create`: the message body, destination
number, and `sendAt` instant.  The messaging-service id is fixed by the
environment and omitted. -/
structure MessageRequest where
  body : String
  «to» : String
  sendAt : Int
deriving DecidableEq, Repr

/-- The `ScheduleParams` interface of `twilio.ts`. -/
structure ScheduleParams where
  phoneNumber : String
  accessTime : Int
  timezone : String
deriving DecidableEq, Repr

/-- The `ScheduleResult` interface of `twilio.ts` (revision with the
`scheduledMessages` field).  TypeScript optional fields are modelled as
`Option`, absent fields as `none`; a `scheduledFor` ISO string is
represented by its instant. -/
structure ScheduleResult where
  success : Bool
  messageIds : Option (List String) := none
  scheduledMessages : Option (List (String × Int)) := none
  error : Option String := none
deriving DecidableEq, Repr

/-- Two-digit formatting of the minute, as the locale option requests. -/
def pad2 (n : Nat) : String :=
  if n < 10 then "0" ++ toString n else toString n

/-- The call `accessTime.toLocaleTimeString` with the en-US locale, UTC
time zone, numeric hour, two-digit minute and 12-hour clock: the UTC time
of day in 12-hour form, e.g. "8:00 PM". -/
def formatTime12 (t : Int) : String :=
  let msOfDay := (t.emod dayMs).toNat
  let h24 := msOfDay / 3600000
  let m := msOfDay % 3600000 / 60000
  let h12 := if h24 % 12 = 0 then 12 else h24 % 12
  let suffix := if h24 < 12 then "AM" else "PM"
  toString h12 ++ ":" ++ pad2 m ++ " " ++ suffix

/-- The warning message request built by `scheduleAccessNotifications`:
sent five minutes before the access time. -/
def mkWarningReq (phone : String) (accessTime : Int) : MessageRequest :=
  { body := "Claude Code Countdown: Heads up - your access returns in about 5 minutes ("
        ++ formatTime12 accessTime
        ++ " UTC). Get ready to code! - claudecodecountdown.com"
    «to» := phone
    sendAt := accessTime - 5 * 60 * 1000 }

/-- The access-restored message request built by
`scheduleAccessNotifications`: sent at the access time. -/
def mkRestoredReq (phone : String) (accessTime : Int) : MessageRequest :=
  { body := "Claude Code Countdown: Your access has been restored. Time to get back to coding! - claudecodecountdown.com"
    «to» := phone
    sendAt := accessTime }

/-- Error message of the missing-credentials branch. -/
def credsErrorMsg : String :=
  "Twilio credentials not configured. Please set TWILIO_ACCOUNT_SID and TWILIO_AUTH_TOKEN."

/-- Error message of the missing-messaging-service branch. -/
def msidErrorMsg : String :=
  "TWILIO_MESSAGING_SERVICE_SID not configured. Scheduled messages require a Messaging Service. Create one at https://console.twilio.com/us1/develop/sms/services"

/-- Error message when both candidate messages fall inside the minimum-lead
window and the request set is empty. -/
def noWindowErrorMsg : String :=
  "The selected time must be at least 16 minutes in the future for scheduled messages."

/-- `scheduleAccessNotifications` from `twilio.ts` (the revision with the
16-minute minimum scheduling lead).  The dispatch capability models
`client.messages.create`: `Except.error e` is a rejected promise whose
error message is `e`, caught by the surrounding `try`/`catch` which aborts
the remaining work and returns the failure result.  Alongside the
`ScheduleResult`, the list of message requests actually passed to the
dispatch capability is returned, in call order, so that "issues a dispatch
request" is observable. -/
def scheduleAccessNotifications (env : TwilioEnv)
    (dispatch : MessageRequest → Except String String)
    (params : ScheduleParams) (now : Int) :
    ScheduleResult × List MessageRequest :=
  if optionFalsy env.accountSid || optionFalsy env.authToken then
    ({ success := false, error := some credsErrorMsg }, [])
  else if optionFalsy env.messagingServiceSid then
    ({ success := false, error := some msidErrorMsg }, [])
  else
    let fiveMinutesBefore : Int := params.accessTime - 5 * 60 * 1000
    let minimumScheduleTime : Int := now + 16 * 60 * 1000
    let warningReq := mkWarningReq params.phoneNumber params.accessTime
    let restoredReq := mkRestoredReq params.phoneNumber params.accessTime
    if fiveMinutesBefore ≥ minimumScheduleTime then
      match dispatch warningReq with
      | Except.error e =>
        ({ success := false, error := some ("Failed to schedule SMS: " ++ e) }, [warningReq])
      | Except.ok sid1 =>
        if params.accessTime ≥ minimumScheduleTime then
          match dispatch restoredReq with
          | Except.error e =>
            ({ success := false, error := some ("Failed to schedule SMS: " ++ e) },
             [warningReq, restoredReq])
          | Except.ok sid2 =>
            ({ success := true, messageIds := some [sid1, sid2],
               scheduledMessages := some
                 [("5-minute warning", fiveMinutesBefore),
                  ("access restored", params.accessTime)] },
             [warningReq, restoredReq])
        else
          ({ success := true, messageIds := some [sid1],
             scheduledMessages := some [("5-minute warning", fiveMinutesBefore)] },
           [warningReq])
    else
      if params.accessTime ≥ minimumScheduleTime then
        match dispatch restoredReq with
        | Except.error e =>
          ({ success := false, error := some ("Failed to schedule SMS: " ++ e) },
           [restoredReq])
        | Except.ok sid2 =>
          ({ success := true, messageIds := some [sid2],
             scheduledMessages := some [("access restored", params.accessTime)] },
           [restoredReq])
      else
        ({ success := false, error := some noWindowErrorMsg }, [])

/-- Prefixing the message of the provider with the fixed catch-branch text never
yields the empty string. -/
theorem failed_msg_ne_empty (e : String) : "Failed to schedule SMS: " ++ e ≠ "" := by
  intro h
  have hlen := congrArg String.length h
  rw [String.length_append] at hlen
  have h24 : "Failed to schedule SMS: ".length = 24 := by decide
  have h0 : "".length = 0 := rfl
  omega

/-- C6: with usable credentials, a target ten minutes after `now` yields no
dispatch request at all and a failure outcome whose error describes the
minimum-lead-time constraint, because both candidate instants (now+5min and
now+10min) fall inside the 16-minute minimum lead window. -/
theorem c6_no_eligible_window :
    ∀ (env : TwilioEnv) (dispatch : MessageRequest → Except String String)
      (phone tz : String) (T : Int),
      optionFalsy env.accountSid = false →
      optionFalsy env.authToken = false →
      optionFalsy env.messagingServiceSid = false →
      scheduleAccessNotifications env dispatch
          { phoneNumber := phone, accessTime := T + 600000, timezone := tz } T =
        ({ success := false, error := some noWindowErrorMsg }, []) := by
  intro env dispatch phone tz T h1 h2 h3
  simp only [scheduleAccessNotifications, h1, h2, h3, Bool.or_self,
    Bool.false_eq_true, if_false]
  rw [if_neg (by omega), if_neg (by omega)]

/-- Witness for C6 at T = 0 with concrete credentials. -/
theorem c6_no_eligible_window_witness :
    scheduleAccessNotifications
        { accountSid := some "AC", authToken := some "tk", messagingServiceSid := some "MG" }
        (fun _ => Except.ok "SM")
        { phoneNumber := "+15551234567", accessTime := 0 + 600000, timezone := "UTC" } 0 =
      ({ success := false, error := some noWindowErrorMsg }, []) :=
  c6_no_eligible_window
    { accountSid := some "AC", authToken := some "tk", messagingServiceSid := some "MG" }
    (fun _ => Except.ok "SM") "+15551234567" "UTC" 0 (by decide) (by decide) (by decide)

/-- C7: with usable credentials and a successfully dispatching capability,
a target twenty minutes after `now` issues exactly one request — the
restored notification at the target instant — while the warning candidate
at now+15min falls inside the 16-minute lead window and is silently
dropped; the outcome is a success carrying exactly the identifier of that
one request and no error. -/
theorem c7_single_eligible_request :
    ∀ (env : TwilioEnv) (dispatch : MessageRequest → Except String String)
      (phone tz sid : String) (T : Int),
      optionFalsy env.accountSid = false →
      optionFalsy env.authToken = false →
      optionFalsy env.messagingServiceSid = false →
      dispatch (mkRestoredReq phone (T + 1200000)) = Except.ok sid →
      scheduleAccessNotifications env dispatch
          { phoneNumber := phone, accessTime := T + 1200000, timezone := tz } T =
        ({ success := true, messageIds := some [sid],
           scheduledMessages := some [("access restored", T + 1200000)] },
         [mkRestoredReq phone (T + 1200000)]) := by
  intro env dispatch phone tz sid T h1 h2 h3 hd
  simp only [scheduleAccessNotifications, h1, h2, h3, Bool.or_self,
    Bool.false_eq_true, if_false]
  rw [if_neg (by omega), if_pos (by omega)]
  rw [hd]

/-- Witness for C7 at T = 0 with concrete credentials. -/
theorem c7_single_eligible_request_witness :
    scheduleAccessNotifications
        { accountSid := some "AC", authToken := some "tk", messagingServiceSid := some "MG" }
        (fun _ => Except.ok "SMrestored")
        { phoneNumber := "+15551234567", accessTime := 0 + 1200000, timezone := "UTC" } 0 =
      ({ success := true, messageIds := some ["SMrestored"],
         scheduledMessages := some [("access restored", 0 + 1200000)] },
       [mkRestoredReq "+15551234567" (0 + 1200000)]) :=
  c7_single_eligible_request
    { accountSid := some "AC", authToken := some "tk", messagingServiceSid := some "MG" }
    (fun _ => Except.ok "SMrestored") "+15551234567" "UTC" "SMrestored" 0
    (by decide) (by decide) (by decide) rfl

/-- A dispatch capability that rejects the warning request (sendAt =
1500000 when the target is 1800000 and now is 0) and accepts any other
request. -/
def c8Dispatch : MessageRequest → Except String String :=
  fun req =>
    if req.sendAt = 1500000 then Except.error "provider rejected warning"
    else Except.ok "SMrestored"

/-- C8 counterexample: with both notifications eligible (now = 0, target =
30 minutes), a failure dispatching the warning request aborts the whole
attempt: the restored request is never passed to the dispatch capability
and the outcome is a failure that carries no dispatch identifier at all —
contradicting the claim that the restored request is still attempted and
its identifier returned. -/
theorem c8_counterexample_not_independent :
    (scheduleAccessNotifications
        { accountSid := some "AC", authToken := some "tk", messagingServiceSid := some "MG" }
        c8Dispatch
        { phoneNumber := "+15551234567", accessTime := 1800000, timezone := "UTC" } 0) =
      ({ success := false, error := some "Failed to schedule SMS: provider rejected warning" },
       [mkWarningReq "+15551234567" 1800000]) ∧
    c8Dispatch (mkRestoredReq "+15551234567" 1800000) = Except.ok "SMrestored" ∧
    ¬ (mkRestoredReq "+15551234567" 1800000) ∈
        (scheduleAccessNotifications
          { accountSid := some "AC", authToken := some "tk", messagingServiceSid := some "MG" }
          c8Dispatch
          { phoneNumber := "+15551234567", accessTime := 1800000, timezone := "UTC" } 0).2 ∧
    (scheduleAccessNotifications
        { accountSid := some "AC", authToken := some "tk", messagingServiceSid := some "MG" }
        c8Dispatch
        { phoneNumber := "+15551234567", accessTime := 1800000, timezone := "UTC" } 0).1.messageIds
      = none := by
  refine ⟨by decide, rfl, ?_, by decide⟩
  intro hmem
  revert hmem
  decide

/-- C8 amended: the two dispatches are not independent — they are attempted
sequentially inside a single try/catch, so when both notifications are
eligible and dispatching the warning request fails, the restored request is
not attempted and the outcome is a failure carrying the provider error
message and no dispatch identifiers. -/
theorem c8_amended_sequential_abort :
    ∀ (env : TwilioEnv) (dispatch : MessageRequest → Except String String)
      (phone tz e : String) (T target : Int),
      optionFalsy env.accountSid = false →
      optionFalsy env.authToken = false →
      optionFalsy env.messagingServiceSid = false →
      target - 300000 ≥ T + 960000 →
      dispatch (mkWarningReq phone target) = Except.error e →
      scheduleAccessNotifications env dispatch
          { phoneNumber := phone, accessTime := target, timezone := tz } T =
        ({ success := false, error := some ("Failed to schedule SMS: " ++ e) },
         [mkWarningReq phone target]) := by
  intro env dispatch phone tz e T target h1 h2 h3 helig hd
  simp only [scheduleAccessNotifications, h1, h2, h3, Bool.or_self,
    Bool.false_eq_true, if_false]
  rw [if_pos (by omega)]
  rw [hd]

/-- Witness for the amended C8 at now = 0, target = 1800000. -/
theorem c8_amended_sequential_abort_witness :
    scheduleAccessNotifications
        { accountSid := some "AC", authToken := some "tk", messagingServiceSid := some "MG" }
        c8Dispatch
        { phoneNumber := "+15551234567", accessTime := 1800000, timezone := "UTC" } 0 =
      ({ success := false,
         error := some ("Failed to schedule SMS: " ++ "provider rejected warning") },
       [mkWarningReq "+15551234567" 1800000]) :=
  c8_amended_sequential_abort
    { accountSid := some "AC", authToken := some "tk", messagingServiceSid := some "MG" }
    c8Dispatch "+15551234567" "UTC" "provider rejected warning" 0 1800000
    (by decide) (by decide) (by decide) (by omega) rfl

/-- C10: every `ScheduleResult` the scheduler returns satisfies the
invariant: on success the identifier list is present with exactly one or
two identifiers and no error is set; on failure a non-empty error string is
set and no identifiers are returned.  This holds on every path, including
missing credentials, empty request set, and a thrown dispatch error. -/
theorem c10_schedule_result_invariant :
    ∀ (env : TwilioEnv) (dispatch : MessageRequest → Except String String)
      (params : ScheduleParams) (now : Int),
      ((scheduleAccessNotifications env dispatch params now).1.success = true →
        ∃ ids, (scheduleAccessNotifications env dispatch params now).1.messageIds = some ids ∧
          (ids.length = 1 ∨ ids.length = 2) ∧
          (scheduleAccessNotifications env dispatch params now).1.error = none) ∧
      ((scheduleAccessNotifications env dispatch params now).1.success = false →
        (∃ e, (scheduleAccessNotifications env dispatch params now).1.error = some e ∧ e ≠ "") ∧
        (scheduleAccessNotifications env dispatch params now).1.messageIds = none) := by
  intro env dispatch params now
  simp only [scheduleAccessNotifications]
  split
  · exact ⟨by intro h; exact absurd h (by simp), fun _ => ⟨⟨credsErrorMsg, rfl, by decide⟩, rfl⟩⟩
  · split
    · exact ⟨by intro h; exact absurd h (by simp), fun _ => ⟨⟨msidErrorMsg, rfl, by decide⟩, rfl⟩⟩
    · split
      · split
        · rename_i e heq
          exact ⟨by intro h; exact absurd h (by simp),
                 fun _ => ⟨⟨_, rfl, failed_msg_ne_empty e⟩, rfl⟩⟩
        · split
          · split
            · rename_i e heq
              exact ⟨by intro h; exact absurd h (by simp),
                     fun _ => ⟨⟨_, rfl, failed_msg_ne_empty e⟩, rfl⟩⟩
            · exact ⟨fun _ => ⟨_, rfl, Or.inr rfl, rfl⟩, by intro h; exact absurd h (by simp)⟩
          · exact ⟨fun _ => ⟨_, rfl, Or.inl rfl, rfl⟩, by intro h; exact absurd h (by simp)⟩
      · split
        · split
          · rename_i e heq
            exact ⟨by intro h; exact absurd h (by simp),
                   fun _ => ⟨⟨_, rfl, failed_msg_ne_empty e⟩, rfl⟩⟩
          · exact ⟨fun _ => ⟨_, rfl, Or.inl rfl, rfl⟩, by intro h; exact absurd h (by simp)⟩
        · exact ⟨by intro h; exact absurd h (by simp),
                 fun _ => ⟨⟨noWindowErrorMsg, rfl, by decide⟩, rfl⟩⟩

/-- Witness for C10: a successful run (target 30 minutes out, dispatch
accepting) and a failing run (missing credentials). -/
theorem c10_schedule_result_invariant_witness :
    (∃ ids, (scheduleAccessNotifications
        { accountSid := some "AC", authToken := some "tk", messagingServiceSid := some "MG" }
        (fun _ => Except.ok "SM")
        { phoneNumber := "+15551234567", accessTime := 1800000, timezone := "UTC" } 0).1.messageIds
          = some ids ∧
        (ids.length = 1 ∨ ids.length = 2) ∧
        (scheduleAccessNotifications
          { accountSid := some "AC", authToken := some "tk", messagingServiceSid := some "MG" }
          (fun _ => Except.ok "SM")
          { phoneNumber := "+15551234567", accessTime := 1800000, timezone := "UTC" } 0).1.error
          = none) ∧
    ((∃ e, (scheduleAccessNotifications
        { accountSid := none, authToken := none, messagingServiceSid := none }
        (fun _ => Except.ok "SM")
        { phoneNumber := "+15551234567", accessTime := 1800000, timezone := "UTC" } 0).1.error
          = some e ∧ e ≠ "") ∧
      (scheduleAccessNotifications
        { accountSid := none, authToken := none, messagingServiceSid := none }
        (fun _ => Except.ok "SM")
        { phoneNumber := "+15551234567", accessTime := 1800000, timezone := "UTC" } 0).1.messageIds
          = none) :=
  ⟨(c10_schedule_result_invariant
      { accountSid := some "AC", authToken := some "tk", messagingServiceSid := some "MG" }
      (fun _ => Except.ok "SM")
      { phoneNumber := "+15551234567", accessTime := 1800000, timezone := "UTC" } 0).1
      (by decide),
   (c10_schedule_result_invariant
      { accountSid := none, authToken := none, messagingServiceSid := none }
      (fun _ => Except.ok "SM")
      { phoneNumber := "+15551234567", accessTime := 1800000, timezone := "UTC" } 0).2
      (by decide)⟩

/-- The request body of the scheduling endpoint (`ScheduleRequest` in
`route.ts`); each field may be absent from the JSON object. -/
structure ScheduleRequest where
  phoneNumber : Option String
  accessTime : Option String
  timezone : Option String
deriving DecidableEq, Repr

/-- An HTTP response of the endpoint: the status code together with the
JSON payload fields actually produced (`success`, and optionally `message`,
`error` and `messageIds`). -/
structure ApiResponse where
  status : Nat
  success : Bool
  message : Option String := none
  error : Option String := none
  messageIds : Option (List String) := none
deriving DecidableEq, Repr

/-- The basic E.164 check of `route.ts`: the regex
`^\+[1-9]\d{1,14}$` — a plus sign, a nonzero digit, then one to
fourteen further digits. -/
def isE164 (s : String) : Bool :=
  match s.toList with
  | '+' :: c :: rest =>
    ('1' ≤ c && c ≤ '9') && rest.all Char.isDigit
      && (1 ≤ rest.length && rest.length ≤ 14)
  | _ => false

/-- Milliseconds in the 7-day scheduling horizon.  `route.ts` computes it
with `setDate(getDate() + 7)`, i.e. seven calendar days ahead, which under
a fixed UTC offset is exactly this many milliseconds. -/
def sevenDaysMs : Int := 604800000

/-- `POST` from `app/api/schedule-sms/route.ts` (lines 18-92).  The `Date`
constructor on the `accessTime` string is abstracted as the `parseDate`
capability (`none` models an invalid date, i.e. `isNaN(getTime())`), and
the imported `scheduleAccessNotifications` as the `schedule` capability.
The request body is `Except.error e` when `request.json()` throws with
message `e`, which the outer catch turns into a 500 response.  Alongside
the response, a flag records whether the scheduler was invoked. -/
def routePOST (parseDate : String → Option Int)
    (schedule : ScheduleParams → ScheduleResult)
    (body : Except String ScheduleRequest) (now : Int) :
    ApiResponse × Bool :=
  match body with
  | Except.error e =>
    ({ status := 500, success := false, error := some ("Server error: " ++ e) }, false)
  | Except.ok b =>
    if optionFalsy b.phoneNumber || optionFalsy b.accessTime || optionFalsy b.timezone then
      ({ status := 400, success := false,
         error := some "Missing required fields: phoneNumber, accessTime, timezone" }, false)
    else if ¬ isE164 (b.phoneNumber.getD "") then
      ({ status := 400, success := false,
         error := some "Invalid phone number format. Use E.164 format (e.g., +1234567890)" }, false)
    else
      match parseDate (b.accessTime.getD "") with
      | none =>
        ({ status := 400, success := false,
           error := some "Invalid access time format. Use ISO 8601 format." }, false)
      | some accessTime =>
        if accessTime ≤ now then
          ({ status := 400, success := false,
             error := some "Access time must be in the future." }, false)
        else if accessTime > now + sevenDaysMs then
          ({ status := 400, success := false,
             error := some "Access time must be within 7 days from now (Twilio limitation)." }, false)
        else
          let result := schedule
            { phoneNumber := b.phoneNumber.getD "", accessTime := accessTime,
              timezone := b.timezone.getD "" }
          if result.success then
            ({ status := 200, success := true,
               message := some "SMS notifications scheduled successfully!",
               messageIds := result.messageIds }, true)
          else
            ({ status := 500, success := false, error := result.error }, true)

/-- C9: the endpoint returns a 400 response with an error and without
invoking the scheduler when a field is missing, the phone number fails the
E.164 check, the access time is unparseable, not in the future, or beyond
the 7-day horizon; when the scheduler fails it returns a 500 response with
the error of the scheduler; and on success it returns 200 with `success`,
`message` and the dispatch identifiers. -/
theorem c9_endpoint_validation :
    (∀ (parseDate : String → Option Int) (schedule : ScheduleParams → ScheduleResult)
       (b : ScheduleRequest) (now : Int),
        b.phoneNumber = none ∨ b.accessTime = none ∨ b.timezone = none →
        routePOST parseDate schedule (Except.ok b) now =
          ({ status := 400, success := false,
             error := some "Missing required fields: phoneNumber, accessTime, timezone" },
           false)) ∧
    (∀ (parseDate : String → Option Int) (schedule : ScheduleParams → ScheduleResult)
       (p a tz : String) (now : Int),
        p ≠ "" → a ≠ "" → tz ≠ "" → isE164 p = false →
        routePOST parseDate schedule (Except.ok ⟨some p, some a, some tz⟩) now =
          ({ status := 400, success := false,
             error := some "Invalid phone number format. Use E.164 format (e.g., +1234567890)" },
           false)) ∧
    (∀ (parseDate : String → Option Int) (schedule : ScheduleParams → ScheduleResult)
       (p a tz : String) (now : Int),
        p ≠ "" → a ≠ "" → tz ≠ "" → isE164 p = true → parseDate a = none →
        routePOST parseDate schedule (Except.ok ⟨some p, some a, some tz⟩) now =
          ({ status := 400, success := false,
             error := some "Invalid access time format. Use ISO 8601 format." },
           false)) ∧
    (∀ (parseDate : String → Option Int) (schedule : ScheduleParams → ScheduleResult)
       (p a tz : String) (now t : Int),
        p ≠ "" → a ≠ "" → tz ≠ "" → isE164 p = true → parseDate a = some t →
        t ≤ now →
        routePOST parseDate schedule (Except.ok ⟨some p, some a, some tz⟩) now =
          ({ status := 400, success := false,
             error := some "Access time must be in the future." },
           false)) ∧
    (∀ (parseDate : String → Option Int) (schedule : ScheduleParams → ScheduleResult)
       (p a tz : String) (now t : Int),
        p ≠ "" → a ≠ "" → tz ≠ "" → isE164 p = true → parseDate a = some t →
        now < t → t > now + sevenDaysMs →
        routePOST parseDate schedule (Except.ok ⟨some p, some a, some tz⟩) now =
          ({ status := 400, success := false,
             error := some "Access time must be within 7 days from now (Twilio limitation)." },
           false)) ∧
    (∀ (parseDate : String → Option Int) (schedule : ScheduleParams → ScheduleResult)
       (p a tz : String) (now t : Int),
        p ≠ "" → a ≠ "" → tz ≠ "" → isE164 p = true → parseDate a = some t →
        now < t → t ≤ now + sevenDaysMs →
        (schedule { phoneNumber := p, accessTime := t, timezone := tz }).success = false →
        routePOST parseDate schedule (Except.ok ⟨some p, some a, some tz⟩) now =
          ({ status := 500, success := false,
             error := (schedule { phoneNumber := p, accessTime := t, timezone := tz }).error },
           true)) ∧
    (∀ (parseDate : String → Option Int) (schedule : ScheduleParams → ScheduleResult)
       (p a tz : String) (now t : Int),
        p ≠ "" → a ≠ "" → tz ≠ "" → isE164 p = true → parseDate a = some t →
        now < t → t ≤ now + sevenDaysMs →
        (schedule { phoneNumber := p, accessTime := t, timezone := tz }).success = true →
        routePOST parseDate schedule (Except.ok ⟨some p, some a, some tz⟩) now =
          ({ status := 200, success := true,
             message := some "SMS notifications scheduled successfully!",
             messageIds := (schedule { phoneNumber := p, accessTime := t, timezone := tz }).messageIds },
           true)) := by
  refine ⟨?_, ?_, ?_, ?_, ?_, ?_, ?_⟩
  · intro parseDate schedule b now h
    rcases h with h | h | h <;> simp [routePOST, h, optionFalsy]
  · intro parseDate schedule p a tz now hp ha htz hphone
    simp [routePOST, optionFalsy, hp, ha, htz, hphone]
  · intro parseDate schedule p a tz now hp ha htz hphone hdate
    simp [routePOST, optionFalsy, hp, ha, htz, hphone, hdate]
  · intro parseDate schedule p a tz now t hp ha htz hphone hdate hpast
    simp [routePOST, optionFalsy, hp, ha, htz, hphone, hdate, hpast]
  · intro parseDate schedule p a tz now t hp ha htz hphone hdate hfut hhor
    simp [routePOST, optionFalsy, hp, ha, htz, hphone, hdate]
    rw [if_neg (by omega), if_pos (by omega)]
  · intro parseDate schedule p a tz now t hp ha htz hphone hdate hfut hhor hfail
    simp [routePOST, optionFalsy, hp, ha, htz, hphone, hdate]
    rw [if_neg (by omega), if_neg (by omega), if_neg (by rw [hfail]; exact Bool.false_ne_true)]
  · intro parseDate schedule p a tz now t hp ha htz hphone hdate hfut hhor hok
    simp [routePOST, optionFalsy, hp, ha, htz, hphone, hdate]
    rw [if_neg (by omega), if_neg (by omega), if_pos hok]

/-- Witness for C9: a successful request and a scheduler-failure request at
concrete inputs. -/
theorem c9_endpoint_validation_witness :
    routePOST (fun _ => some 1000000)
        (fun _ => { success := true, messageIds := some ["SM1"] })
        (Except.ok ⟨some "+12025550123", some "iso", some "UTC"⟩) 0 =
      ({ status := 200, success := true,
         message := some "SMS notifications scheduled successfully!",
         messageIds := some ["SM1"] },
       true) ∧
    routePOST (fun _ => some 1000000)
        (fun _ => { success := false, error := some "boom" })
        (Except.ok ⟨some "+12025550123", some "iso", some "UTC"⟩) 0 =
      ({ status := 500, success := false, error := some "boom" }, true) :=
  ⟨c9_endpoint_validation.2.2.2.2.2.2 (fun _ => some 1000000)
     (fun _ => { success := true, messageIds := some ["SM1"] })
     "+12025550123" "iso" "UTC" 0 1000000
     (by decide) (by decide) (by decide) (by decide) rfl (by decide) (by decide) rfl,
   c9_endpoint_validation.2.2.2.2.2.1 (fun _ => some 1000000)
     (fun _ => { success := false, error := some "boom" })
     "+12025550123" "iso" "UTC" 0 1000000
     (by decide) (by decide) (by decide) (by decide) rfl (by decide) (by decide) rfl⟩

end Countdown
